import Mathlib

/-!
# Verification of the unicornMaker game logic (`game/views.py`)

Shallow embedding of the investment-game request handlers of
`src/game/views.py`: the session lifecycle (`game_start_view`,
`play_view`), investment resolution (`invest_view`), passing
(`pass_view`) and the user-statistics update (`update_user_stats`).

Modelling conventions:
* Python integers become `Int`; percentages and probabilities drawn or
  compared as Python floats become `ℚ` (exact-real model of the float
  arithmetic).
* The random draws (`random.random()`, `random.randint`) and the
  external text-generation collaborator (`gemini_service`) are modelled
  as explicit parameters of the operations; the guarantee of
  `random.randint(a, b)` — the result lies in `[a, b]` — appears as a
  hypothesis on the drawn value where a theorem needs it.
* Django's per-request HTTP session dictionary entries
  (`current_character`, `current_idea`) are parameters of
  `invest_view`; a missing/empty entry is `Option.none`.
* A redirect leaves the persistent state untouched, so each handler
  returns the new persistent state together with an outcome tag that
  records where the browser is sent.
-/

set_option autoImplicit false

namespace UnicornMaker

/-- A game session row. `calculate_profit_rate` (in `game/models.py`,
outside the extracted sources) is modelled from the spec below; the
`final_profit_rate` field is kept as an exact rational. -/
structure GameSession where
  initial_capital : Int
  current_capital : Int
  remaining_chances : Int
  is_finished : Bool
  final_profit_rate : ℚ
deriving Repr, DecidableEq

/-- The user rows' statistics fields touched by `update_user_stats`. -/
structure User where
  total_games : Int
  best_profit_rate : ℚ
deriving Repr, DecidableEq

/-- An `Investment` row as created by `invest_view`. -/
structure Investment where
  character_name : String
  idea_title : String
  idea_description : String
  invest_amount : Int
  is_success : Bool
  profit_rate : Int
  result_system_msg : String
  result_character_reaction : String
deriving Repr, DecidableEq

/-- The character dictionary produced by `get_random_character`
(external `gemini_service`): `invest_view` reads these keys with
`.get` and a default, so each field is optional. -/
structure Character where
  name : Option String
  success_rate : Option ℚ
  min_roi : Option Int
  max_roi : Option Int
deriving Repr, DecidableEq

/-- The idea dictionary produced by `generate_idea` (external). -/
structure Idea where
  title : Option String
  description : Option String
deriving Repr, DecidableEq

/-- The result dictionary produced by `generate_result` (external). -/
structure GenResult where
  system_msg : Option String
  reaction : Option String
deriving Repr, DecidableEq

/-- The persistent state a request handler can touch: the session row,
its owner's statistics and the investment rows of the session. -/
structure GameState where
  session : GameSession
  user : User
  investments : List Investment
deriving Repr, DecidableEq

/-- Modelled from the spec: `GameSession.calculate_profit_rate` lives in
`game/models.py`, which is not among the extracted sources. The spec
states the final profit rate is the percentage change of the capital
relative to the initial stake, `(final - initial) / initial × 100`. -/
def calculate_profit_rate (s : GameSession) : ℚ :=
  ((s.current_capital : ℚ) - (s.initial_capital : ℚ)) / (s.initial_capital : ℚ) * 100

/-- `update_user_stats(user, profit_rate)`: one more finished game, and
the best profit rate is raised when beaten. -/
def update_user_stats (user : User) (profit_rate : ℚ) : User :=
  { total_games := user.total_games + 1
    best_profit_rate :=
      if user.best_profit_rate < profit_rate then profit_rate
      else user.best_profit_rate }

/-- The fresh session created by `game_start_view`
(`current_capital=10000`, `remaining_chances=5`). -/
def newGameSession : GameSession :=
  { initial_capital := 10000
    current_capital := 10000
    remaining_chances := 5
    is_finished := false
    final_profit_rate := 0 }

/-- Where `play_view` sends the browser. -/
inductive PlayOutcome where
  | redirectMain
  | redirectRanking
  | renderPlay
deriving Repr, DecidableEq

/-- `play_view`: redirect home when the session is already finished;
close the session (recording the final profit rate and updating the
user statistics) when the capital is below the 2000 minimum wager;
otherwise draw a character and an idea and render the play screen
(which does not change the persistent state). -/
def play_view (st : GameState) : GameState × PlayOutcome :=
  if st.session.is_finished then
    (st, .redirectMain)
  else if st.session.current_capital < 2000 then
    let s : GameSession :=
      { st.session with
        is_finished := true
        final_profit_rate := calculate_profit_rate st.session }
    ({ st with
       session := s
       user := update_user_stats st.user s.final_profit_rate },
     .redirectRanking)
  else
    (st, .renderPlay)

/-- Where `invest_view` sends the browser. -/
inductive InvestOutcome where
  | redirectPlay
  | redirectResult
deriving Repr, DecidableEq

/-- `invest_view` (the POST branch). Parameters beyond the state:
* `amount?` — the parsed wager; `none` models an `amount` field whose
  `int(...)` conversion raises `ValueError`;
* `character?`, `idea` — the HTTP-session dictionaries stored by
  `play_view` (`none` models the falsy empty dictionary);
* `u` — the value drawn by `random.random()`;
* `pct` — the value drawn by `random.randint(min_roi, max_roi)` on
  success;
* `res` — the dictionary returned by `generate_result`.
The profit on success is `int(invest_amount * (profit_rate / 100))`,
modelled exactly as truncation toward zero of the rational product
(`Int.tdiv`); Python evaluates it in binary floating point, which can
differ from the exact value by one unit in extreme cases. -/
def invest_view (st : GameState) (amount? : Option Int) (character? : Option Character)
    (idea : Idea) (u : ℚ) (pct : Int) (res : GenResult) : GameState × InvestOutcome :=
  match amount? with
  | none => (st, .redirectPlay)
  | some invest_amount =>
    if invest_amount < 2000 ∧ invest_amount ≠ st.session.current_capital then
      (st, .redirectPlay)
    else if st.session.current_capital < invest_amount then
      (st, .redirectPlay)
    else
      match character? with
      | none => (st, .redirectPlay)
      | some character =>
        let success_prob : ℚ := character.success_rate.getD (1 / 2)
        let is_success : Bool := decide (u < success_prob)
        let profit_rate : Int := if is_success then pct else -100
        let new_capital : Int :=
          if is_success then
            st.session.current_capital + Int.tdiv (invest_amount * pct) 100
          else
            st.session.current_capital - invest_amount
        let investment : Investment :=
          { character_name := character.name.getD "알 수 없음"
            idea_title := idea.title.getD "제목 없음"
            idea_description := idea.description.getD ""
            invest_amount := invest_amount
            is_success := is_success
            profit_rate := profit_rate
            result_system_msg := res.system_msg.getD ""
            result_character_reaction := res.reaction.getD "" }
        let s1 : GameSession :=
          { st.session with
            current_capital := new_capital
            remaining_chances := st.session.remaining_chances - 1 }
        if s1.remaining_chances ≤ 0 ∨ s1.current_capital ≤ 0 then
          let s2 : GameSession :=
            { s1 with
              is_finished := true
              final_profit_rate := calculate_profit_rate s1 }
          ({ session := s2
             user := update_user_stats st.user s2.final_profit_rate
             investments := st.investments ++ [investment] },
           .redirectResult)
        else
          ({ st with
             session := s1
             investments := st.investments ++ [investment] },
           .redirectResult)

/-- `pass_view`: a bare redirect to the play screen; the persistent
state is untouched. -/
def pass_view (st : GameState) : GameState := st

/-! ## Theorems -/

/-- C1 (counterexample): the claim "a session is finished iff its
remaining chances or its capital equal zero; no session closes while
both are positive" fails: on the reachable state with capital 1500 and
4 remaining chances (start with 10000, wager 8500, lose), opening the
play screen closes the session although both chances and capital are
positive, because the capital is below the 2000 minimum wager. -/
theorem C1_counterexample :
    ((play_view ⟨⟨10000, 1500, 4, false, 0⟩, ⟨0, 0⟩, []⟩).1.session.is_finished = true) ∧
      0 < (1500 : Int) ∧ 0 < (4 : Int) := by
  refine ⟨rfl, by decide, by decide⟩

/-- C1 (amended): for an unfinished session, a resolved investment
closes the session exactly when the decremented chances or the updated
capital drop to (or below) zero; the play screen closes it exactly when
its capital is below the 2000 minimum wager (which can happen while
both chances and capital are positive); a rejected investment and a
pass never close it. -/
theorem C1_close_characterization (st : GameState) (amount : Int) (ch : Character)
    (idea : Idea) (u : ℚ) (pct : Int) (res : GenResult)
    (hnf : st.session.is_finished = false) :
    ((play_view st).1.session.is_finished = true ↔ st.session.current_capital < 2000) ∧
    (pass_view st).session.is_finished = false ∧
    ((invest_view st (some amount) (some ch) idea u pct res).1.session.is_finished = true ↔
      ((invest_view st (some amount) (some ch) idea u pct res).2 = .redirectResult ∧
        ((invest_view st (some amount) (some ch) idea u pct res).1.session.remaining_chances ≤ 0 ∨
          (invest_view st (some amount) (some ch) idea u pct res).1.session.current_capital ≤ 0))) := by
  refine ⟨?_, hnf, ?_⟩
  · simp [play_view, hnf]
    split_ifs with h <;> simp [hnf, h]
  · simp only [invest_view]
    split_ifs with h1 h2 h3 <;> simp_all

/-- C1 (witness for the amended theorem): on the state with capital
1500 and 4 chances, the play screen does close the session. -/
theorem C1_close_characterization_witness :
    (play_view ⟨⟨10000, 1500, 4, false, 0⟩, ⟨0, 0⟩, []⟩).1.session.is_finished = true := by
  have h := C1_close_characterization ⟨⟨10000, 1500, 4, false, 0⟩, ⟨0, 0⟩, []⟩ 2000
    ⟨none, none, none, none⟩ ⟨none, none⟩ 0 10 ⟨none, none⟩ rfl
  exact h.1.mpr (by decide)

/-- C2 (counterexample): the claim "a wager is accepted exactly when
0 < amount ≤ capital (all-in only overriding the minimum-wager
floor)" fails at the wager 0 on a session whose capital is 0 (an
exhausted, finished session — `invest_view` never checks
`is_finished`): the all-in branch `invest_amount == current_capital`
also overrides the positivity requirement, and the wager resolves. -/
theorem C2_counterexample :
    (invest_view ⟨⟨10000, 0, 0, true, -100⟩, ⟨1, -100⟩, []⟩ (some 0)
        (some ⟨none, none, none, none⟩) ⟨none, none⟩ 1 10 ⟨none, none⟩).2 =
      InvestOutcome.redirectResult ∧ ¬(0 < (0 : Int)) := by
  exact ⟨rfl, by decide⟩

/-- C2 (amended): a submitted wager resolves exactly when it parses as
an integer `a` with `a ≤ capital` and (`2000 ≤ a` or `a = capital`):
for positive capital this is the claim's `0 < a ≤ capital` with the
all-in override of the 2000 floor, but the degenerate all-in
`a = capital = 0` is accepted as well. Every rejected submission — and
any submission when the play screen's character is missing from the
HTTP session — redirects back with the persistent state unchanged. -/
theorem C2_wager_validation (st : GameState) (amount? : Option Int) (ch : Character)
    (idea : Idea) (u : ℚ) (pct : Int) (res : GenResult) :
    ((invest_view st amount? (some ch) idea u pct res).2 = .redirectResult ↔
      (∃ a, amount? = some a ∧ (2000 ≤ a ∨ a = st.session.current_capital) ∧
        a ≤ st.session.current_capital)) ∧
    ((invest_view st amount? (some ch) idea u pct res).2 = .redirectPlay →
      (invest_view st amount? (some ch) idea u pct res).1 = st) ∧
    (invest_view st amount? none idea u pct res).2 = .redirectPlay ∧
    (invest_view st amount? none idea u pct res).1 = st := by
  refine ⟨?_, ?_, ?_, ?_⟩
  · cases amount? with
    | none => simp [invest_view]
    | some a =>
      simp only [invest_view]
      split_ifs with h1 h2 <;> simp <;> omega
  · cases amount? with
    | none => simp [invest_view]
    | some a =>
      intro h
      simp only [invest_view] at h ⊢
      split_ifs at h ⊢ <;> simp_all
  · cases amount? with
    | none => rfl
    | some a =>
      simp only [invest_view]
      split_ifs <;> rfl
  · cases amount? with
    | none => rfl
    | some a =>
      simp only [invest_view]
      split_ifs <;> rfl

/-- C10: passing is a bare redirect: it leaves the whole persistent
state — session capital, chances, finished flag, final profit rate and
the investment rows — untouched. -/
theorem C10_pass_is_noop (st : GameState)
    (_hnf : st.session.is_finished = false) :
    pass_view st = st := rfl

/-- C3: resolving an accepted wager never leaves the capital negative:
starting from a non-negative capital, a lost round subtracts a wager
the validation bounded by the capital, and a won round adds the
(non-negative, since the drawn return percentage is non-negative)
truncated profit. -/
theorem C3_capital_nonneg (st : GameState) (amount : Int) (ch : Character)
    (idea : Idea) (u : ℚ) (pct : Int) (res : GenResult)
    (hcap : 0 ≤ st.session.current_capital) (hpct : 0 ≤ pct)
    (hres : (invest_view st (some amount) (some ch) idea u pct res).2 = .redirectResult) :
    0 ≤ (invest_view st (some amount) (some ch) idea u pct res).1.session.current_capital := by
  have hdiv : (0 : Int) ≤ Int.tdiv (amount * pct) 100 ∨ amount < 0 := by
    rcases le_or_lt 0 amount with h | h
    · exact Or.inl (Int.tdiv_nonneg (mul_nonneg h hpct) (by norm_num))
    · exact Or.inr h
  simp only [invest_view] at hres ⊢
  split_ifs at hres ⊢ with h1 h2 h3 h4 h5 <;> simp_all <;> rcases hdiv with h | h <;> omega

/-- C3 (witness): an all-in of the whole 10000 starting capital that
fails leaves the capital at 0, not negative. -/
theorem C3_capital_nonneg_witness :
    0 ≤ (invest_view ⟨⟨10000, 10000, 5, false, 0⟩, ⟨0, 0⟩, []⟩ (some 10000)
        (some ⟨none, none, none, none⟩) ⟨none, none⟩ 1 10 ⟨none, none⟩).1.session.current_capital :=
  C3_capital_nonneg ⟨⟨10000, 10000, 5, false, 0⟩, ⟨0, 0⟩, []⟩ 10000
    ⟨none, none, none, none⟩ ⟨none, none⟩ 1 10 ⟨none, none⟩ (by decide) (by decide)
    (by norm_num [invest_view])

/-- C4 (counterexample): the claim "exactly amount × pct/100 is added
to the capital" fails: a won wager of 2050 at a drawn 13% return adds
`int(2050 * 0.13) = 266`, not the exact 266.5 — capital 10000 becomes
10266, while the claim demands the (non-integral) 10266.5. -/
theorem C4_counterexample :
    (invest_view ⟨⟨10000, 10000, 5, false, 0⟩, ⟨0, 0⟩, []⟩ (some 2050)
        (some ⟨none, none, none, none⟩) ⟨none, none⟩ 0 13 ⟨none, none⟩).1.session.current_capital
      = 10266 ∧
    ((10266 : ℚ) ≠ 10000 + 2050 * 13 / 100) := by
  constructor
  · norm_num [invest_view, Int.tdiv]
  · norm_num

/-- C4 (amended): for an accepted wager and a drawn return percentage
`pct` within the character's `[min_roi, max_roi]` bounds, a drawn
uniform value below the character's success probability adds the
truncation toward zero of amount × pct/100 to the capital (Python's
`int(invest_amount * (profit_rate / 100))`, modelled exactly up to the
source's binary floating point); otherwise the full wager amount is
subtracted. -/
theorem C4_resolution (st : GameState) (amount : Int) (ch : Character)
    (idea : Idea) (u : ℚ) (pct : Int) (res : GenResult)
    (_hpct : ch.min_roi.getD 10 ≤ pct ∧ pct ≤ ch.max_roi.getD 50)
    (hres : (invest_view st (some amount) (some ch) idea u pct res).2 = .redirectResult) :
    (u < ch.success_rate.getD (1 / 2) →
      (invest_view st (some amount) (some ch) idea u pct res).1.session.current_capital =
        st.session.current_capital + Int.tdiv (amount * pct) 100) ∧
    (¬ u < ch.success_rate.getD (1 / 2) →
      (invest_view st (some amount) (some ch) idea u pct res).1.session.current_capital =
        st.session.current_capital - amount) := by
  simp only [invest_view] at hres ⊢
  split_ifs at hres ⊢ <;> simp_all

/-- C4 (witness for the amended theorem): a won wager of 2050 at a
drawn 13% return takes the capital from 10000 to
10000 + (2050·13) tdiv 100 = 10266. -/
theorem C4_resolution_witness :
    (invest_view ⟨⟨10000, 10000, 5, false, 0⟩, ⟨0, 0⟩, []⟩ (some 2050)
        (some ⟨none, none, none, none⟩) ⟨none, none⟩ 0 13 ⟨none, none⟩).1.session.current_capital =
      10000 + Int.tdiv (2050 * 13) 100 :=
  (C4_resolution ⟨⟨10000, 10000, 5, false, 0⟩, ⟨0, 0⟩, []⟩ 2050 ⟨none, none, none, none⟩
    ⟨none, none⟩ 0 13 ⟨none, none⟩ (by decide) (by norm_num [invest_view, Int.tdiv])).1
    (by norm_num [Option.getD_none])

/-- C5 (code evaluated at the failing input): `invest_view` never
checks `is_finished`, so a finished session (capital 5000, no chances
left) still resolves a posted wager of 3000: its capital drops to
2000, its chances to −1, a new investment row is created and
`update_user_stats` tallies the game a second time — contradicting the
spec's "a session, once finished, is never reopened or mutated
again". -/
theorem C5_finished_session_mutated :
    (invest_view ⟨⟨10000, 5000, 0, true, -50⟩, ⟨1, -50⟩, []⟩ (some 3000)
        (some ⟨none, none, none, none⟩) ⟨none, none⟩ 1 10 ⟨none, none⟩).1.session.current_capital
      = 2000 ∧
    (invest_view ⟨⟨10000, 5000, 0, true, -50⟩, ⟨1, -50⟩, []⟩ (some 3000)
        (some ⟨none, none, none, none⟩) ⟨none, none⟩ 1 10 ⟨none, none⟩).1.session.remaining_chances
      = -1 ∧
    (invest_view ⟨⟨10000, 5000, 0, true, -50⟩, ⟨1, -50⟩, []⟩ (some 3000)
        (some ⟨none, none, none, none⟩) ⟨none, none⟩ 1 10 ⟨none, none⟩).1.investments.length
      = 1 ∧
    (invest_view ⟨⟨10000, 5000, 0, true, -50⟩, ⟨1, -50⟩, []⟩ (some 3000)
        (some ⟨none, none, none, none⟩) ⟨none, none⟩ 1 10 ⟨none, none⟩).1.user.total_games
      = 2 := by
  norm_num [invest_view, update_user_stats]

/-- C6: the remaining-chances counter never increases: the play screen
and a pass leave it unchanged, a rejected wager leaves it unchanged,
and a resolved investment decrements it by exactly one. -/
theorem C6_chances_monotone (st : GameState) (amount? : Option Int)
    (character? : Option Character) (idea : Idea) (u : ℚ) (pct : Int) (res : GenResult) :
    (play_view st).1.session.remaining_chances = st.session.remaining_chances ∧
    (pass_view st).session.remaining_chances = st.session.remaining_chances ∧
    (invest_view st amount? character? idea u pct res).1.session.remaining_chances ≤
      st.session.remaining_chances ∧
    ((invest_view st amount? character? idea u pct res).2 = .redirectResult →
      (invest_view st amount? character? idea u pct res).1.session.remaining_chances =
        st.session.remaining_chances - 1) := by
  refine ⟨?_, rfl, ?_, ?_⟩
  · simp only [play_view]
    split_ifs <;> rfl
  · cases amount? with
    | none => simp [invest_view]
    | some a =>
      cases character? with
      | none =>
        simp only [invest_view]
        split_ifs <;> simp
      | some ch =>
        simp only [invest_view]
        split_ifs <;> simp
  · cases amount? with
    | none => simp [invest_view]
    | some a =>
      cases character? with
      | none =>
        intro h
        simp only [invest_view] at h
        split_ifs at h
      | some ch =>
        intro h
        simp only [invest_view] at h ⊢
        split_ifs at h ⊢ <;> simp_all

/-- C7: whenever an operation closes an unfinished session — the play
screen on a capital below the minimum wager, or an investment that
exhausts chances or capital — the recorded final profit rate is
(final capital − initial capital) / initial capital × 100. -/
theorem C7_final_profit_rate (st : GameState) (amount? : Option Int)
    (character? : Option Character) (idea : Idea) (u : ℚ) (pct : Int) (res : GenResult)
    (hnf : st.session.is_finished = false) :
    ((play_view st).1.session.is_finished = true →
      (play_view st).1.session.final_profit_rate =
        (((play_view st).1.session.current_capital : ℚ) - (st.session.initial_capital : ℚ)) /
          (st.session.initial_capital : ℚ) * 100) ∧
    ((invest_view st amount? character? idea u pct res).1.session.is_finished = true →
      (invest_view st amount? character? idea u pct res).1.session.final_profit_rate =
        (((invest_view st amount? character? idea u pct res).1.session.current_capital : ℚ) -
          (st.session.initial_capital : ℚ)) / (st.session.initial_capital : ℚ) * 100) := by
  constructor
  · intro h
    by_cases hc : st.session.current_capital < 2000
    · simp [play_view, hnf, hc, calculate_profit_rate]
    · exfalso
      simp [play_view, hnf, hc] at h
  · intro h
    cases amount? with
    | none => simp only [invest_view] at h; simp_all
    | some a =>
      cases character? with
      | none =>
        simp only [invest_view] at h
        split_ifs at h <;> simp_all
      | some ch =>
        simp only [invest_view] at h ⊢
        split_ifs at h ⊢ with h1 h2 h3 <;> simp_all [calculate_profit_rate]

/-- C7 (witness): the play screen closing the session with capital 1500
records the final profit rate (1500 − 10000)/10000 × 100. -/
theorem C7_final_profit_rate_witness :
    (play_view ⟨⟨10000, 1500, 4, false, 0⟩, ⟨0, 0⟩, []⟩).1.session.final_profit_rate =
      ((1500 : ℚ) - 10000) / 10000 * 100 := by
  have h := (C7_final_profit_rate ⟨⟨10000, 1500, 4, false, 0⟩, ⟨0, 0⟩, []⟩ none none
    ⟨none, none⟩ 0 10 ⟨none, none⟩ rfl).1 (by decide)
  simpa using h

/-- C8: `update_user_stats` adds exactly one to the games-played count
and raises the best profit rate to the maximum of its old value and
the session's final rate (so it never decreases); the play screen and
an investment leave the user's statistics untouched unless they close
the session, in which case the statistics change exactly by
`update_user_stats` at the session's final profit rate; a pass never
touches them. -/
theorem C8_user_stats (usr : User) (r : ℚ) (st : GameState) (amount? : Option Int)
    (character? : Option Character) (idea : Idea) (u : ℚ) (pct : Int) (res : GenResult) :
    (update_user_stats usr r).total_games = usr.total_games + 1 ∧
    (update_user_stats usr r).best_profit_rate = max usr.best_profit_rate r ∧
    usr.best_profit_rate ≤ (update_user_stats usr r).best_profit_rate ∧
    ((play_view st).1.user = st.user ∨
      ((play_view st).1.session.is_finished = true ∧
        (play_view st).1.user =
          update_user_stats st.user (play_view st).1.session.final_profit_rate)) ∧
    (pass_view st).user = st.user ∧
    ((invest_view st amount? character? idea u pct res).1.user = st.user ∨
      ((invest_view st amount? character? idea u pct res).1.session.is_finished = true ∧
        (invest_view st amount? character? idea u pct res).1.user =
          update_user_stats st.user
            (invest_view st amount? character? idea u pct res).1.session.final_profit_rate)) := by
  refine ⟨rfl, ?_, ?_, ?_, rfl, ?_⟩
  · simp only [update_user_stats, max_def]
    split_ifs <;> first | rfl | linarith
  · simp only [update_user_stats]
    split_ifs with h
    · exact h.le
    · exact le_rfl
  · simp only [play_view]
    split_ifs with h1 h2
    · exact Or.inl rfl
    · exact Or.inr ⟨rfl, rfl⟩
    · exact Or.inl rfl
  · cases amount? with
    | none => exact Or.inl rfl
    | some a =>
      cases character? with
      | none =>
        simp only [invest_view]
        split_ifs <;> exact Or.inl rfl
      | some ch =>
        simp only [invest_view]
        split_ifs <;> first | exact Or.inl rfl | exact Or.inr ⟨rfl, rfl⟩

/-- C9: the play screen and a pass create no investment rows; a
rejected wager creates none; a resolved investment appends exactly one
new row; and no operation modifies a row already present (the old list
is always an unchanged prefix of the new one). -/
theorem C9_investment_records (st : GameState) (amount? : Option Int)
    (character? : Option Character) (idea : Idea) (u : ℚ) (pct : Int) (res : GenResult) :
    (play_view st).1.investments = st.investments ∧
    (pass_view st).investments = st.investments ∧
    ((invest_view st amount? character? idea u pct res).2 = .redirectResult →
      ∃ inv, (invest_view st amount? character? idea u pct res).1.investments =
        st.investments ++ [inv]) ∧
    ((invest_view st amount? character? idea u pct res).2 = .redirectPlay →
      (invest_view st amount? character? idea u pct res).1.investments = st.investments) ∧
    (invest_view st amount? character? idea u pct res).1.investments.take
      st.investments.length = st.investments := by
  refine ⟨?_, rfl, ?_, ?_, ?_⟩
  · simp only [play_view]
    split_ifs <;> rfl
  · cases amount? with
    | none => intro h; simp [invest_view] at h
    | some a =>
      cases character? with
      | none =>
        intro h
        simp only [invest_view] at h
        split_ifs at h
      | some ch =>
        intro h
        simp only [invest_view] at h ⊢
        split_ifs at h ⊢ <;> exact ⟨_, rfl⟩
  · cases amount? with
    | none => intro h; rfl
    | some a =>
      cases character? with
      | none =>
        intro h
        simp only [invest_view] at h ⊢
        split_ifs at h ⊢ <;> simp_all
      | some ch =>
        intro h
        simp only [invest_view] at h ⊢
        split_ifs at h ⊢ <;> simp_all
  · cases amount? with
    | none => simp [invest_view]
    | some a =>
      cases character? with
      | none =>
        simp only [invest_view]
        split_ifs <;> simp
      | some ch =>
        simp only [invest_view]
        split_ifs <;> simp

/-- C10 (witness): passing on a fresh session changes nothing. -/
theorem C10_pass_is_noop_witness :
    pass_view ⟨newGameSession, ⟨0, 0⟩, []⟩ = ⟨newGameSession, ⟨0, 0⟩, []⟩ :=
  C10_pass_is_noop ⟨newGameSession, ⟨0, 0⟩, []⟩ rfl

end UnicornMaker
